import Mathlib

/-!
# Verification of the Lucie agent's rate-limit / streaming orchestration layer

Shallow embedding of the Python source under `src/agents/lucie_agent/`
(`retry.py`, `agent.py`, `summarizer.py`, `main.py`) together with proofs of
the behavioural properties stated in the specification.

Strings are modelled by Lean `String`; Python string primitives
(`str.strip`, `str.lower`, `str.upper`, `in` substring tests, `str.split`,
`str.replace`, slicing) are re-implemented below over `List Char` so that
every definition is executable and decidable.
-/

namespace LucieAgent

/-! ## Python string primitives -/

/-- Python's whitespace set for `str.strip()` / `str.split()`:
space, tab, newline, carriage return, vertical tab, form feed. -/
def pythonWhitespace (c : Char) : Bool :=
  c == ' ' || c == '\t' || c == '\n' || c == '\r' ||
  c == Char.ofNat 11 || c == Char.ofNat 12

/-- `str.strip()` on a character list: drop leading and trailing whitespace. -/
def pyStripChars (l : List Char) : List Char :=
  ((l.dropWhile pythonWhitespace).reverse.dropWhile pythonWhitespace).reverse

/-- `str.strip()`. -/
def pyStrip (s : String) : String :=
  String.mk (pyStripChars s.data)

/-- Does the list start with the given pattern? -/
def listStartsWith : List Char → List Char → Bool
  | _, [] => true
  | [], _ :: _ => false
  | h :: t, p :: q => h == p && listStartsWith t q

/-- Python's substring test `pat in hay` (empty pattern is contained). -/
def containsSub : List Char → List Char → Bool
  | [], pat => pat.isEmpty
  | h :: t, pat => listStartsWith (h :: t) pat || containsSub t pat

/-- Python `pat in hay` on strings. -/
def strContains (hay pat : String) : Bool :=
  containsSub hay.data pat.data

/-- Python `str.lower()` (ASCII case mapping, as used on the error strings). -/
def lowerStr (s : String) : String :=
  String.mk (s.data.map Char.toLower)

/-- Python `str.upper()`. -/
def upperStr (s : String) : String :=
  String.mk (s.data.map Char.toUpper)

/-- Index of the first occurrence of `pat` in the list (Python `str.index`). -/
def findSubIdx : List Char → List Char → Option Nat
  | [], pat => if pat.isEmpty then some 0 else none
  | h :: t, pat =>
    if listStartsWith (h :: t) pat then some 0
    else (findSubIdx t pat).map (· + 1)

/-- Python `str.split()` (no argument): split on whitespace runs, dropping
empty fields.  `acc` accumulates the current word reversed. -/
def pyWordsAux : List Char → List Char → List (List Char)
  | [], acc => if acc.isEmpty then [] else [acc.reverse]
  | c :: t, acc =>
    if pythonWhitespace c then
      if acc.isEmpty then pyWordsAux t [] else acc.reverse :: pyWordsAux t []
    else pyWordsAux t (c :: acc)

/-- Python `" ".join(s.split())`: collapse internal whitespace to single
spaces and strip the ends. -/
def collapseWs (s : String) : String :=
  String.intercalate " " ((pyWordsAux s.data []).map String.mk)

/-- Python `hay.replace(pat, "")`: remove every (left-to-right,
non-overlapping) occurrence of `pat`. -/
def removeAllSub : List Char → List Char → List Char
  | l, [] => l
  | [], _ :: _ => []
  | c :: t, p :: q =>
    if listStartsWith (c :: t) (p :: q) then
      removeAllSub (List.drop (p :: q).length (c :: t)) (p :: q)
    else
      c :: removeAllSub t (p :: q)
termination_by l _ => l.length
decreasing_by
  · simp only [List.length_drop, List.length_cons]; omega
  · simp only [List.length_cons]; omega

/-- Python `hay.replace(pat, "")` on strings. -/
def pyReplaceAll (s pat : String) : String :=
  String.mk (removeAllSub s.data pat.data)

/-- Python `str.split(sep)` for a single-character separator (the source
only splits on `"\n"` and `"|"`): split at every occurrence, keeping empty
fields.  `acc` accumulates the current field reversed. -/
def pySplitOnCharAux (sep : Char) : List Char → List Char → List (List Char)
  | [], acc => [acc.reverse]
  | c :: t, acc =>
    if c == sep then acc.reverse :: pySplitOnCharAux sep t []
    else pySplitOnCharAux sep t (c :: acc)

/-- Python `str.split(sep)` on strings, single-character separator. -/
def pySplitOnChar (s : String) (sep : Char) : List String :=
  (pySplitOnCharAux sep s.data []).map String.mk

/-! ## `retry.py` — RateLimitClassifier (`is_rate_limit_error`) -/

/-- The indicator substrings recognized by `is_rate_limit_error`
(`retry.py` lines 77-87). -/
def rateLimitIndicators : List String :=
  ["429", "rate limit", "rate_limit", "ratelimit", "quota", "exhausted",
   "resource_exhausted", "too many requests", "overloaded"]

/-- `is_rate_limit_error` (`retry.py` lines 65-87): lowercase the error's
string form and test whether any indicator occurs as a substring. -/
def is_rate_limit_error (errorMsg : String) : Bool :=
  let message := lowerStr errorMsg
  rateLimitIndicators.any (fun indicator => strContains message indicator)

/-! ## `retry.py` — BackoffRetrier (`retry_with_backoff`)

The operation is modelled as a function from the attempt index to an
`Except String α` outcome (`.error e` models the raised exception's string
form).  The trace records each invocation, each retry notification emitted
via `_emit_retry_event`, and each `asyncio.sleep`.  The slept delay is
`base_delay_ms * backoff_multiplier ^ attempt + jitter` milliseconds with
`jitter` drawn uniformly from `[0, max_jitter_ms)`; the random jitter is not
tracked in the trace, only which attempt the wait belongs to. -/

/-- One observable action of `retry_with_backoff`. -/
inductive RetryAction where
  /-- an invocation of the wrapped operation at this attempt index -/
  | call (attempt : Nat)
  /-- `_emit_retry_event(attempt + 1, max_retries + 1, delay)` -/
  | emitRetry (attempt maxAttempts : Nat)
  /-- `asyncio.sleep(delay_seconds)` between attempt `attempt` and the next -/
  | wait (attempt : Nat)
deriving DecidableEq, Repr

/-- The deterministic part of the backoff delay formula
(`retry.py` line 135), in milliseconds over `ℚ` (`backoff_multiplier = 1.5`
by default). -/
def backoffDelayMs (baseDelayMs multiplier jitter : ℚ) (attempt : Nat) : ℚ :=
  baseDelayMs * multiplier ^ attempt + jitter

/-- The body of `retry_with_backoff`'s `for attempt in range(max_retries+1)`
loop (`retry.py` lines 117-146), started at a given attempt index.
Returns the action trace and the final outcome. -/
def retryFrom (fn : Nat → Except String α) (max_retries : Nat)
    (attempt : Nat) : List RetryAction × Except String α :=
  match fn attempt with
  | Except.ok v => ([RetryAction.call attempt], Except.ok v)
  | Except.error e =>
    if is_rate_limit_error e = false then
      ([RetryAction.call attempt], Except.error e)
    else if _h : max_retries ≤ attempt then
      ([RetryAction.call attempt], Except.error e)
    else
      let rest := retryFrom fn max_retries (attempt + 1)
      (RetryAction.call attempt ::
        RetryAction.emitRetry (attempt + 1) (max_retries + 1) ::
        RetryAction.wait attempt :: rest.1,
       rest.2)
termination_by max_retries - attempt
decreasing_by omega

/-- `retry_with_backoff(fn, max_retries, ...)` (`retry.py` lines 90-151). -/
def retry_with_backoff (fn : Nat → Except String α) (max_retries : Nat) :
    List RetryAction × Except String α :=
  retryFrom fn max_retries 0

/-- Number of `call` actions in a retry trace. -/
def countCalls (l : List RetryAction) : Nat :=
  l.countP (fun a => match a with | RetryAction.call _ => true | _ => false)

/-- Number of `wait` actions in a retry trace. -/
def countWaits (l : List RetryAction) : Nat :=
  l.countP (fun a => match a with | RetryAction.wait _ => true | _ => false)

end LucieAgent

namespace LucieAgent

/-! ## Theorems: C5, C3, C4 -/

/-- C5: `is_rate_limit_error` returns true exactly for error strings that
contain, case-insensitively, one of the recognized rate-limit indicators
(429 / rate-limit phrasing / quota / exhaustion / too many requests /
overloaded), and false otherwise — in particular false on
"invalid api key" and "connection refused". -/
theorem C5_rate_limit_classifier :
    (∀ s ind, ind ∈ rateLimitIndicators →
      strContains (lowerStr s) ind = true → is_rate_limit_error s = true)
    ∧ (∀ s, is_rate_limit_error s = true →
        ∃ ind, ind ∈ rateLimitIndicators ∧ strContains (lowerStr s) ind = true)
    ∧ is_rate_limit_error "HTTP 429 Too Many Requests" = true
    ∧ is_rate_limit_error "Rate Limit exceeded" = true
    ∧ is_rate_limit_error "Quota exceeded for this project" = true
    ∧ is_rate_limit_error "RESOURCE_EXHAUSTED" = true
    ∧ is_rate_limit_error "Anthropic API error: Overloaded" = true
    ∧ is_rate_limit_error "invalid api key" = false
    ∧ is_rate_limit_error "connection refused" = false := by
  refine ⟨?_, ?_, by decide, by decide, by decide, by decide, by decide,
    by decide, by decide⟩
  · intro s ind hmem hsub
    simp only [is_rate_limit_error, List.any_eq_true]
    exact ⟨ind, hmem, hsub⟩
  · intro s hs
    simp only [is_rate_limit_error, List.any_eq_true] at hs
    exact ⟨hs.choose, hs.choose_spec.1, hs.choose_spec.2⟩

/-- Witness for C5: the indicator "429" occurs in "HTTP 429", so the
classifier accepts it. -/
theorem C5_witness :
    "429" ∈ rateLimitIndicators
    ∧ strContains (lowerStr "HTTP 429") "429" = true
    ∧ is_rate_limit_error "HTTP 429" = true :=
  ⟨by decide, by decide,
    C5_rate_limit_classifier.1 "HTTP 429" "429" (by decide) (by decide)⟩

/-- C3: an operation that raises a rate-limit-classified error on every
invocation, retried with `max_retries = 3`, is invoked exactly 4 times
(initial attempt plus 3 retries) with a retry notification and a backoff
wait between consecutive attempts, and the last error is raised. -/
theorem C3_retry_exhaustion (e : Nat → String)
    (hrl : ∀ n, is_rate_limit_error (e n) = true) :
    retry_with_backoff (fun n => (Except.error (e n) : Except String String)) 3 =
      ([RetryAction.call 0, RetryAction.emitRetry 1 4, RetryAction.wait 0,
        RetryAction.call 1, RetryAction.emitRetry 2 4, RetryAction.wait 1,
        RetryAction.call 2, RetryAction.emitRetry 3 4, RetryAction.wait 2,
        RetryAction.call 3],
       Except.error (e 3))
    ∧ countCalls (retry_with_backoff
        (fun n => (Except.error (e n) : Except String String)) 3).1 = 4
    ∧ countWaits (retry_with_backoff
        (fun n => (Except.error (e n) : Except String String)) 3).1 = 3 := by
  have h0 := hrl 0
  have h1 := hrl 1
  have h2 := hrl 2
  have h3 := hrl 3
  have key : retry_with_backoff
      (fun n => (Except.error (e n) : Except String String)) 3 =
      ([RetryAction.call 0, RetryAction.emitRetry 1 4, RetryAction.wait 0,
        RetryAction.call 1, RetryAction.emitRetry 2 4, RetryAction.wait 1,
        RetryAction.call 2, RetryAction.emitRetry 3 4, RetryAction.wait 2,
        RetryAction.call 3],
       Except.error (e 3)) := by
    rw [retry_with_backoff]
    rw [retryFrom]; simp only [h0, Bool.true_eq_false, if_false]
    rw [retryFrom]; simp only [h1, Bool.true_eq_false, if_false]
    rw [retryFrom]; simp only [h2, Bool.true_eq_false, if_false]
    rw [retryFrom]; simp only [h3, Bool.true_eq_false, if_false]
    norm_num
  refine ⟨key, ?_, ?_⟩ <;> rw [key]
  · rfl
  · rfl

/-- Witness for C3: the always-failing operation with error string "429". -/
theorem C3_witness :
    retry_with_backoff (fun _ => (Except.error "429" : Except String String)) 3 =
      ([RetryAction.call 0, RetryAction.emitRetry 1 4, RetryAction.wait 0,
        RetryAction.call 1, RetryAction.emitRetry 2 4, RetryAction.wait 1,
        RetryAction.call 2, RetryAction.emitRetry 3 4, RetryAction.wait 2,
        RetryAction.call 3],
       Except.error "429") :=
  (C3_retry_exhaustion (fun _ => "429")
    (fun _ => (by decide : is_rate_limit_error "429" = true))).1

/-- C4: an operation whose first invocation raises a non-rate-limit error
is attempted once; the error propagates immediately with zero waits and no
retry notification. -/
theorem C4_immediate_propagation (fn : Nat → Except String String) (e : String)
    (hfn : fn 0 = Except.error e) (hnrl : is_rate_limit_error e = false)
    (max_retries : Nat) :
    retry_with_backoff fn max_retries = ([RetryAction.call 0], Except.error e) := by
  rw [retry_with_backoff, retryFrom, hfn]
  simp [hnrl]

/-- Witness for C4: the operation failing with "invalid api key" is not
retried. -/
theorem C4_witness :
    retry_with_backoff (fun _ => (Except.error "invalid api key" : Except String String)) 3 =
      ([RetryAction.call 0], Except.error "invalid api key") :=
  C4_immediate_propagation (fun _ => Except.error "invalid api key")
    "invalid api key" rfl (by decide) 3

/-! ## `agent.py` — IntentRouter (`classify_intent`, `route_by_intent`) -/

/-- The five intents (`agent.py` line 68). -/
inductive Intent where
  | TECHNIQUE | PERSONNEL | CODE | CONTACT | OFF_TOPIC
deriving DecidableEq, Repr

/-- The two languages (`agent.py` line 86). -/
inductive Language where
  | FR | EN
deriving DecidableEq, Repr

/-- The static contact text returned by `contact_response`
(`agent.py` lines 71-77 and 285-287), with surrounding whitespace stripped. -/
def CONTACT_INFO : String :=
  "Tu peux me contacter par email : **luciedefraiteur@luciformresearch.com**\n\nTu peux aussi :\n- Voir mes projets sur GitHub : https://github.com/LuciformResearch\n- Visiter mon site : https://luciformresearch.com"

/-- The parsing part of `classify_intent` (`agent.py` lines 195-217):
uppercase and strip the classifier reply, take the first line, split on
`|`, map the category by substring matching in precedence order
TECHNIQUE, PERSONNEL, CODE, CONTACT with OFF_TOPIC as default, and map the
language token to FR exactly when "FR" occurs in it. -/
def classify_intent (responseContent : String) : Intent × Language :=
  let response_text := upperStr (pyStrip responseContent)
  let first_line := pyStrip ((pySplitOnChar response_text '\n').headD "")
  let parts := pySplitOnChar first_line '|'
  let intent_text := pyStrip (parts.headD "")
  let language_text := if parts.length > 1 then pyStrip (parts.getD 1 "") else "EN"
  let intent :=
    if strContains intent_text "TECHNIQUE" then Intent.TECHNIQUE
    else if strContains intent_text "PERSONNEL" then Intent.PERSONNEL
    else if strContains intent_text "CODE" then Intent.CODE
    else if strContains intent_text "CONTACT" then Intent.CONTACT
    else Intent.OFF_TOPIC
  let language := if strContains language_text "FR" then Language.FR else Language.EN
  (intent, language)

/-- `route_by_intent` (`agent.py` lines 258-268): the graph-node name each
intent routes to. -/
def route_by_intent (intent : Intent) : String :=
  if intent = Intent.TECHNIQUE ∨ intent = Intent.CODE then "agent_with_tools"
  else if intent = Intent.CONTACT then "contact_response"
  else if intent = Intent.OFF_TOPIC then "off_topic_response"
  else "persona_response"

/-- `contact_response` (`agent.py` lines 285-287): a constant message
requiring no model call. -/
def contact_response : String := CONTACT_INFO

/-- C6: classifier replies are parsed by first-line substring matching in
precedence order TECHNIQUE, PERSONNEL, CODE, CONTACT (default OFF_TOPIC),
with language FR exactly when "FR" occurs case-insensitively (default EN);
"CONTACT|EN" routes to the static contact response and the unparseable
"blah|FR" routes to off-topic generation in French. -/
theorem C6_intent_router :
    classify_intent "CONTACT|EN" = (Intent.CONTACT, Language.EN)
    ∧ route_by_intent Intent.CONTACT = "contact_response"
    ∧ contact_response = CONTACT_INFO
    ∧ classify_intent "blah|FR" = (Intent.OFF_TOPIC, Language.FR)
    ∧ route_by_intent Intent.OFF_TOPIC = "off_topic_response"
    ∧ classify_intent "TECHNIQUE|EN" = (Intent.TECHNIQUE, Language.EN)
    ∧ classify_intent "PERSONNEL or CODE|EN" = (Intent.PERSONNEL, Language.EN)
    ∧ classify_intent "technique personnel|en" = (Intent.TECHNIQUE, Language.EN)
    ∧ classify_intent "CODE CONTACT|fr" = (Intent.CODE, Language.FR)
    ∧ classify_intent "nonsense" = (Intent.OFF_TOPIC, Language.EN)
    ∧ classify_intent "CONTACT|French (fr)" = (Intent.CONTACT, Language.FR)
    ∧ classify_intent "blah\nCONTACT|FR" = (Intent.OFF_TOPIC, Language.EN)
    ∧ route_by_intent Intent.TECHNIQUE = "agent_with_tools"
    ∧ route_by_intent Intent.CODE = "agent_with_tools"
    ∧ route_by_intent Intent.PERSONNEL = "persona_response" := by
  set_option maxRecDepth 40000 in decide

/-! ## `agent.py` — ToolLoop (`should_continue` and the graph loop)

`should_continue` (`agent.py` lines 297-304) inspects the last message of
the state; `run_agent_streaming` runs the compiled graph with
`recursion_limit = settings.max_iterations * 2` (`agent.py` line 523).
The graph engine executing the `agent_with_tools ⇄ tools` cycle is the
LangGraph library, which is not part of this repository's sources. -/

/-- An assistant reply: its text and whether it requests further tool
calls (`tool_calls` nonempty). -/
structure AIReply where
  text : String
  requestsTools : Bool
deriving DecidableEq, Repr

/-- `should_continue` (`agent.py` lines 297-304): route to the `tools`
node when the last message carries tool calls, otherwise to `END`
(LangGraph's `__end__` sentinel). -/
def should_continue (messages : List AIReply) : String :=
  match messages.getLast? with
  | some m => if m.requestsTools then "tools" else "__end__"
  | none => "__end__"

/-- Modelled from the spec: the LangGraph engine that repeatedly alternates
the tool-augmented strategy node and the tools node is third-party library
code absent from `src/`; only its configuration
(`recursion_limit = max_iterations * 2`, `agent.py` line 523) and its
routing function `should_continue` are in the sources.  Following §4.5 of
the spec, each model turn and each tool turn consumes one cycle of the
ceiling, and on reaching the ceiling the loop force-terminates returning
the last reply.  `strategy i` is the reply produced by the i-th invocation
of the tool-augmented strategy. -/
def toolLoopAux (strategy : Nat → AIReply) (limit : Nat) (i used : Nat) :
    Nat × AIReply :=
  let reply := strategy i
  let used1 := used + 1
  if should_continue [reply] = "__end__" ∨ limit ≤ used1 then (used1, reply)
  else
    let used2 := used1 + 1
    if limit ≤ used2 then (used2, reply)
    else toolLoopAux strategy limit (i + 1) used2
termination_by limit - used
decreasing_by omega

/-- The tool loop run with the ceiling `max_iterations * 2` configured in
`run_agent_streaming` / `run_agent` (`agent.py` lines 408 and 523).
Returns the number of cycles consumed and the final reply. -/
def tool_loop (strategy : Nat → AIReply) (max_iterations : Nat) : Nat × AIReply :=
  toolLoopAux strategy (max_iterations * 2) 0 0

/-- C7: a strategy that requests one more tool call on every reply makes
the loop terminate at the ceiling of `2 * max_iterations` cycles — exactly
6 cycles for `max_iterations = 3` — returning the last reply (the third
model turn's reply) as final without raising, even though it still
requests tools. -/
theorem C7_tool_loop_ceiling (strategy : Nat → AIReply)
    (htools : ∀ i, (strategy i).requestsTools = true) :
    tool_loop strategy 3 = (6, strategy 2)
    ∧ (strategy 2).requestsTools = true := by
  refine ⟨?_, htools 2⟩
  have step : ∀ i, should_continue [strategy i] = "tools" := by
    intro i
    simp [should_continue, htools i]
  rw [tool_loop]
  rw [toolLoopAux]; simp only [step 0]
  norm_num
  rw [toolLoopAux]; simp only [step 1]
  norm_num
  rw [toolLoopAux]; simp only [step 2]
  norm_num
  simp

/-- Witness for C7: the constant always-requesting strategy stops after 6
cycles with its (tool-requesting) reply. -/
theorem C7_witness :
    tool_loop (fun _ => AIReply.mk "let me search again" true) 3 =
      (6, AIReply.mk "let me search again" true)
    ∧ (AIReply.mk "let me search again" true).requestsTools = true :=
  C7_tool_loop_ceiling (fun _ => AIReply.mk "let me search again" true)
    (fun _ => rfl)

/-! ## `agent.py` — buffered vs streaming text extraction (C8)

An assistant message's content is either a plain string or a list of
blocks (text blocks, bare strings, or other block kinds such as tool-use
directives).  A turn's underlying generation is a sequence of response
model turns; the streaming surface (`run_agent_streaming`,
lines 538-560) yields a `token` event for every text fragment of every
response model turn and accumulates `full_response` by plain
concatenation, while the buffered surface (`run_agent`, lines 434-453)
extracts only the last assistant message with truthy content, joining a
block list's text parts with a newline. -/

/-- One element of a list-shaped assistant content
(`isinstance(block, dict)` with `type == "text"`, a bare `str`, or any
other block kind). -/
inductive Block where
  | textBlock (s : String)
  | strBlock (s : String)
  | other
deriving DecidableEq, Repr

/-- Assistant message content: plain string or block list. -/
inductive MsgContent where
  | str (s : String)
  | blocks (bs : List Block)
deriving DecidableEq, Repr

/-- Python truthiness of a content value (empty string / empty list are
falsy). -/
def contentTruthy : MsgContent → Bool
  | MsgContent.str s => !s.isEmpty
  | MsgContent.blocks bs => !bs.isEmpty

/-- The text fragments the streaming surface yields as `token` events for
one content chunk (`agent.py` lines 544-560): skipped entirely when the
content is falsy; for block lists, text blocks and bare strings contribute
in order and other blocks are skipped. -/
def chunkTokens : MsgContent → List String
  | MsgContent.str s => if s.isEmpty then [] else [s]
  | MsgContent.blocks bs =>
    if bs.isEmpty then []
    else bs.filterMap (fun b =>
      match b with
      | Block.textBlock t => some t
      | Block.strBlock t => some t
      | Block.other => none)

/-- The buffered extraction of one message's text (`agent.py`
lines 438-449): block lists have their text parts joined with `"\n"`. -/
def finalText : MsgContent → String
  | MsgContent.str s => s
  | MsgContent.blocks bs =>
    String.intercalate "\n" (bs.filterMap (fun b =>
      match b with
      | Block.textBlock t => some t
      | Block.strBlock t => some t
      | Block.other => none))

/-- One response model turn of a turn's underlying generation: the
assistant content it produces (streamed as token events and recorded as
the turn's assistant message) and whether it requests tool calls. -/
structure ModelTurn where
  content : MsgContent
  requestsTools : Bool
deriving DecidableEq, Repr

/-- `full_response` accumulated by `run_agent_streaming`
(lines 538-560): the concatenation of every `token` event's text over all
response model turns. -/
def streamedText (turns : List ModelTurn) : String :=
  String.join (turns.map (fun t => String.join (chunkTokens t.content)))

/-- The final text returned by `run_agent` (lines 434-453): the text of
the last assistant message with truthy content, or the French fallback
sentence when none yields text. -/
def bufferedText (turns : List ModelTurn) : String :=
  let response_text :=
    match turns.reverse.find? (fun t => contentTruthy t.content) with
    | some t => finalText t.content
    | none => ""
  if response_text.isEmpty then "Je n'ai pas pu generer de reponse."
  else response_text

/-- C8 counterexample: in a turn whose first model turn emits prose and
requests a tool call and whose second model turn answers, the streaming
surface's token concatenation contains both texts while the buffered
surface returns only the final message — the claimed equality fails. -/
theorem C8_counterexample :
    bufferedText
        [ModelTurn.mk (MsgContent.str "Searching the docs. ") true,
         ModelTurn.mk (MsgContent.str "Answer") false] = "Answer"
    ∧ streamedText
        [ModelTurn.mk (MsgContent.str "Searching the docs. ") true,
         ModelTurn.mk (MsgContent.str "Answer") false] = "Searching the docs. Answer"
    ∧ bufferedText
          [ModelTurn.mk (MsgContent.str "Searching the docs. ") true,
           ModelTurn.mk (MsgContent.str "Answer") false] ≠
        streamedText
          [ModelTurn.mk (MsgContent.str "Searching the docs. ") true,
           ModelTurn.mk (MsgContent.str "Answer") false] := by
  refine ⟨rfl, rfl, ?_⟩
  decide

/-- C8 (amended): when every model turn before the last produces empty
string content and the last model turn produces non-empty plain string
content, the buffered surface's final text equals the concatenation of the
streaming surface's token events, both being that last content — the
general per-turn equality fails (see the counterexample) because the
buffered surface keeps only the final message while the streaming surface
concatenates every response model turn's tokens. -/
theorem C8_buffered_streaming (pre : List ModelTurn) (s : String) (r : Bool)
    (hpre : ∀ t ∈ pre, t.content = MsgContent.str "")
    (hs : s ≠ "") :
    bufferedText (pre ++ [ModelTurn.mk (MsgContent.str s) r]) =
      streamedText (pre ++ [ModelTurn.mk (MsgContent.str s) r])
    ∧ bufferedText (pre ++ [ModelTurn.mk (MsgContent.str s) r]) = s := by
  have hse : s.isEmpty = false := by
    cases he : s.isEmpty
    · rfl
    · exact absurd ((String.isEmpty_iff s).mp he) hs
  have hbuf : bufferedText (pre ++ [ModelTurn.mk (MsgContent.str s) r]) = s := by
    rw [bufferedText]
    simp only [List.reverse_append, List.reverse_cons, List.reverse_nil,
      List.nil_append, List.singleton_append, List.find?_cons]
    rw [show contentTruthy (ModelTurn.mk (MsgContent.str s) r).content = true by
      simp [contentTruthy, hse]]
    simp [finalText, hse]
  have hstream : streamedText (pre ++ [ModelTurn.mk (MsgContent.str s) r]) = s := by
    rw [streamedText]
    have hmap : pre.map (fun t => String.join (chunkTokens t.content)) =
        pre.map (fun _ => "") := by
      apply List.map_congr_left
      intro t ht
      rw [hpre t ht]
      rfl
    simp only [List.map_append, hmap, List.map_cons, List.map_nil]
    have hjoin : ∀ n : Nat, String.join (List.replicate n "" ++
        [String.join (chunkTokens (MsgContent.str s))]) = s := by
      intro n
      induction n with
      | zero => simp [String.join, chunkTokens, hse]
      | succ k ih =>
        simpa [String.join, List.replicate] using ih
    have hrep : pre.map (fun _ => ("" : String)) = List.replicate pre.length "" := by
      simp [List.map_const]
    rw [hrep]
    exact hjoin pre.length
  exact ⟨hbuf.trans hstream.symm, hbuf⟩

/-- Witness for C8's amended theorem: a single model turn with plain
string content "Bonjour". -/
theorem C8_witness :
    bufferedText [ModelTurn.mk (MsgContent.str "Bonjour") false] =
      streamedText [ModelTurn.mk (MsgContent.str "Bonjour") false]
    ∧ bufferedText [ModelTurn.mk (MsgContent.str "Bonjour") false] = "Bonjour" :=
  C8_buffered_streaming [] "Bonjour" false (fun t ht => absurd ht (by simp))
    (by decide)

/-! ## `summarizer.py` — TurnSummarizer (`summarize_tool_calls`) -/

/-- `ToolCallSummary` (`summarizer.py` lines 31-36). -/
structure ToolCallSummary where
  user_question : String
  tools_used : List String
  key_findings : String
  assistant_action : String
deriving DecidableEq, Repr

/-- The parsing of the summarizer LLM's reply (`summarizer.py`
lines 129-155).  When both literal markers occur, the block between
`KEY_FINDINGS:` and `ACTION_TAKEN:` and the block after `ACTION_TAKEN:`
are extracted (Python slicing with the first occurrence indices);
otherwise each line starting with a marker overwrites that field
(`str.replace` removes every marker occurrence from the line).  Both
fields are finally collapsed to single-line whitespace. -/
def parseSummaryReply (raw : String) : String × String :=
  let response_text := pyStrip raw
  let kf := "KEY_FINDINGS:"
  let act := "ACTION_TAKEN:"
  if strContains response_text kf && strContains response_text act then
    let key_start := (findSubIdx response_text.data kf.data).getD 0 + kf.length
    let action_start := (findSubIdx response_text.data act.data).getD 0
    let key_findings :=
      pyStrip (String.mk ((response_text.data.drop key_start).take
        (action_start - key_start)))
    let action_taken :=
      pyStrip (String.mk (response_text.data.drop (action_start + act.length)))
    (collapseWs key_findings, collapseWs action_taken)
  else
    let step := fun (acc : String × String) (line : String) =>
      if listStartsWith line.data kf.data then (pyStrip (pyReplaceAll line kf), acc.2)
      else if listStartsWith line.data act.data then (acc.1, pyStrip (pyReplaceAll line act))
      else acc
    let r := (pySplitOnChar response_text '\n').foldl step ("", "")
    (collapseWs r.1, collapseWs r.2)

/-- `summarize_tool_calls` (`summarizer.py` lines 57-180).  The summarizer
LLM call is opaque: its outcome is `Except.ok reply` (the reply text) or
`Except.error e` (a raised exception).  `tool_names` are the names of the
turn's tool calls.  Returns `none` exactly when no tool calls were made;
on an exception the minimal synthesized summary is returned. -/
def summarize_tool_calls (user_message : String) (tool_names : List String)
    (llmOutcome : Except String String) : Option ToolCallSummary :=
  if tool_names.isEmpty then none
  else
    match llmOutcome with
    | Except.ok content =>
      let p := parseSummaryReply content
      some (ToolCallSummary.mk user_message tool_names p.1 p.2)
    | Except.error _ =>
      some (ToolCallSummary.mk user_message tool_names
        ("Used " ++ toString tool_names.length ++ " tool(s)")
        "Responded to user")

/-- C9 counterexample: when the summarizer LLM replies without the
`KEY_FINDINGS:`/`ACTION_TAKEN:` markers (a parse failure), the returned
summary's `key_findings` is the empty string — not a minimal synthesized
summary stating the tool count. -/
theorem C9_counterexample :
    summarize_tool_calls "How does search work?" ["search_knowledge"]
        (Except.ok "I found the search implementation.") =
      some (ToolCallSummary.mk "How does search work?" ["search_knowledge"] "" "")
    ∧ ("" : String) ≠ "Used 1 tool(s)" := by
  constructor
  · rfl
  · decide

/-- C9 (amended): for a turn with at least one tool call,
`summarize_tool_calls` always returns a summary rather than `none`; when
the summarizer LLM call fails it is the minimal synthesized summary whose
`key_findings` states the tool count and whose action is a generic string,
while on a marker parse failure a summary is still returned but with
whatever (possibly empty) fields the line-by-line fallback produced. -/
theorem C9_summary_fallback (user_message : String) (tool_names : List String)
    (llmOutcome : Except String String) (hne : tool_names ≠ []) :
    (summarize_tool_calls user_message tool_names llmOutcome).isSome = true
    ∧ (∀ e, llmOutcome = Except.error e →
        summarize_tool_calls user_message tool_names llmOutcome =
          some (ToolCallSummary.mk user_message tool_names
            ("Used " ++ toString tool_names.length ++ " tool(s)")
            "Responded to user")) := by
  have hemp : tool_names.isEmpty = false := by
    cases tool_names with
    | nil => exact absurd rfl hne
    | cons a t => rfl
  cases llmOutcome with
  | ok c =>
    refine ⟨by simp [summarize_tool_calls, hemp], ?_⟩
    intro e he
    exact absurd he (by simp)
  | error e0 =>
    refine ⟨by simp [summarize_tool_calls, hemp], ?_⟩
    intro e he
    cases he
    simp [summarize_tool_calls, hemp]

/-- Witness for C9's amended theorem: one tool call and a failing
summarizer call yield the minimal synthesized summary. -/
theorem C9_witness :
    (summarize_tool_calls "q" ["search_knowledge"]
        (Except.error "rate limit")).isSome = true
    ∧ summarize_tool_calls "q" ["search_knowledge"]
        (Except.error "rate limit") =
      some (ToolCallSummary.mk "q" ["search_knowledge"] "Used 1 tool(s)"
        "Responded to user") := by
  have h := C9_summary_fallback "q" ["search_knowledge"]
    (Except.error "rate limit") (by decide)
  exact ⟨h.1, h.2 "rate limit" rfl⟩

/-! ## `main.py` — transport-layer rate limiting (`check_rate_limit`)

The three module-level `defaultdict(list)` counters are modelled as total
maps from keys to timestamp lists (default `[]`); `time.time()` is the
explicit `now` argument (timestamps as integers — only order and
differences matter). -/

/-- The three rate-limit counters (`main.py` lines 107-110). -/
structure RateLimitState where
  ip_minute : String → List Int
  ip_daily : String → List Int
  visitor_daily : String → List Int

/-- `WHITELISTED_IPS` (`main.py` line 113). -/
def WHITELISTED_IPS : List String := ["127.0.0.1", "localhost", "::1"]

/-- `DAILY_LIMIT` (`main.py` line 116). -/
def DAILY_LIMIT : Nat := 15

/-- `IP_MINUTE_LIMIT` (`main.py` line 117). -/
def IP_MINUTE_LIMIT : Nat := 5

/-- Point update of a counter map (assignment to a dict entry). -/
def updMap (f : String → List Int) (k : String) (v : List Int) :
    String → List Int :=
  fun x => if x = k then v else f x

/-- `check_rate_limit` (`main.py` lines 120-166): whitelisted IPs pass
without touching any counter; otherwise each relevant counter is pruned to
its window, the request is denied when a pruned counter has reached its
limit (without appending anything), and an allowed request appends `now`
to the per-IP-minute and per-IP-daily counters and, when a visitor id is
given, to that visitor's daily counter. -/
def check_rate_limit (st : RateLimitState) (now : Int) (client_ip : String)
    (visitor_id : Option String) : (Bool × String) × RateLimitState :=
  if client_ip ∈ WHITELISTED_IPS then ((true, "whitelisted"), st)
  else
    let pm := (st.ip_minute client_ip).filter (fun t => now - t < 60)
    let st1 : RateLimitState :=
      { st with ip_minute := updMap st.ip_minute client_ip pm }
    if IP_MINUTE_LIMIT ≤ pm.length then
      ((false, "Trop de requêtes, attendez un moment (5/min)"), st1)
    else
      let pd := (st1.ip_daily client_ip).filter (fun t => now - t < 86400)
      let st2 : RateLimitState :=
        { st1 with ip_daily := updMap st1.ip_daily client_ip pd }
      if DAILY_LIMIT ≤ pd.length then
        ((false, "Limite quotidienne atteinte (15 messages/jour). Revenez demain !"), st2)
      else
        match visitor_id with
        | some v =>
          let pv := (st2.visitor_daily v).filter (fun t => now - t < 86400)
          let st3 : RateLimitState :=
            { st2 with visitor_daily := updMap st2.visitor_daily v pv }
          if DAILY_LIMIT ≤ pv.length then
            ((false, "Limite quotidienne atteinte (15 messages/jour). Revenez demain !"), st3)
          else
            let st4 : RateLimitState :=
              { st3 with visitor_daily := updMap st3.visitor_daily v (pv ++ [now]) }
            let st5 : RateLimitState :=
              { st4 with
                ip_minute := updMap st4.ip_minute client_ip (pm ++ [now]),
                ip_daily := updMap st4.ip_daily client_ip (pd ++ [now]) }
            ((true, "ok"), st5)
        | none =>
          let st5 : RateLimitState :=
            { st2 with
              ip_minute := updMap st2.ip_minute client_ip (pm ++ [now]),
              ip_daily := updMap st2.ip_daily client_ip (pd ++ [now]) }
          ((true, "ok"), st5)

/-- Branch evaluation: whitelisted IPs short-circuit with no state change. -/
theorem crl_whitelisted (st : RateLimitState) (now : Int) (ip : String)
    (v : Option String) (hw : ip ∈ WHITELISTED_IPS) :
    check_rate_limit st now ip v = ((true, "whitelisted"), st) := by
  simp only [check_rate_limit, if_pos hw]

/-- Branch evaluation: per-minute anti-spam denial stores only the pruned
per-minute list. -/
theorem crl_deny_minute (st : RateLimitState) (now : Int) (ip : String)
    (v : Option String) (hw : ip ∉ WHITELISTED_IPS)
    (h1 : IP_MINUTE_LIMIT ≤ ((st.ip_minute ip).filter (fun t => now - t < 60)).length) :
    check_rate_limit st now ip v =
      ((false, "Trop de requêtes, attendez un moment (5/min)"),
       { st with ip_minute :=
           updMap st.ip_minute ip ((st.ip_minute ip).filter (fun t => now - t < 60)) }) := by
  simp only [check_rate_limit, if_neg hw, if_pos h1]

/-- Branch evaluation: per-IP daily-quota denial stores only the pruned
per-minute and per-IP-daily lists. -/
theorem crl_deny_daily (st : RateLimitState) (now : Int) (ip : String)
    (v : Option String) (hw : ip ∉ WHITELISTED_IPS)
    (h1 : ¬ IP_MINUTE_LIMIT ≤ ((st.ip_minute ip).filter (fun t => now - t < 60)).length)
    (h2 : DAILY_LIMIT ≤ ((st.ip_daily ip).filter (fun t => now - t < 86400)).length) :
    check_rate_limit st now ip v =
      ((false, "Limite quotidienne atteinte (15 messages/jour). Revenez demain !"),
       { st with
         ip_minute :=
           updMap st.ip_minute ip ((st.ip_minute ip).filter (fun t => now - t < 60)),
         ip_daily :=
           updMap st.ip_daily ip ((st.ip_daily ip).filter (fun t => now - t < 86400)) }) := by
  simp only [check_rate_limit, if_neg hw, if_neg h1, if_pos h2]

/-- Branch evaluation: per-visitor daily-quota denial stores only pruned
lists. -/
theorem crl_deny_visitor (st : RateLimitState) (now : Int) (ip : String)
    (v0 : String) (hw : ip ∉ WHITELISTED_IPS)
    (h1 : ¬ IP_MINUTE_LIMIT ≤ ((st.ip_minute ip).filter (fun t => now - t < 60)).length)
    (h2 : ¬ DAILY_LIMIT ≤ ((st.ip_daily ip).filter (fun t => now - t < 86400)).length)
    (h3 : DAILY_LIMIT ≤ ((st.visitor_daily v0).filter (fun t => now - t < 86400)).length) :
    check_rate_limit st now ip (some v0) =
      ((false, "Limite quotidienne atteinte (15 messages/jour). Revenez demain !"),
       { st with
         ip_minute :=
           updMap st.ip_minute ip ((st.ip_minute ip).filter (fun t => now - t < 60)),
         ip_daily :=
           updMap st.ip_daily ip ((st.ip_daily ip).filter (fun t => now - t < 86400)),
         visitor_daily :=
           updMap st.visitor_daily v0
             ((st.visitor_daily v0).filter (fun t => now - t < 86400)) }) := by
  simp only [check_rate_limit, if_neg hw, if_neg h1, if_neg h2, if_pos h3]

/-- Branch evaluation: an allowed request with a visitor id appends `now`
to all three pruned counters. -/
theorem crl_allow_some (st : RateLimitState) (now : Int) (ip : String)
    (v0 : String) (hw : ip ∉ WHITELISTED_IPS)
    (h1 : ¬ IP_MINUTE_LIMIT ≤ ((st.ip_minute ip).filter (fun t => now - t < 60)).length)
    (h2 : ¬ DAILY_LIMIT ≤ ((st.ip_daily ip).filter (fun t => now - t < 86400)).length)
    (h3 : ¬ DAILY_LIMIT ≤ ((st.visitor_daily v0).filter (fun t => now - t < 86400)).length) :
    check_rate_limit st now ip (some v0) =
      ((true, "ok"),
       { ip_minute :=
           updMap (updMap st.ip_minute ip
               ((st.ip_minute ip).filter (fun t => now - t < 60))) ip
             ((st.ip_minute ip).filter (fun t => now - t < 60) ++ [now]),
         ip_daily :=
           updMap (updMap st.ip_daily ip
               ((st.ip_daily ip).filter (fun t => now - t < 86400))) ip
             ((st.ip_daily ip).filter (fun t => now - t < 86400) ++ [now]),
         visitor_daily :=
           updMap (updMap st.visitor_daily v0
               ((st.visitor_daily v0).filter (fun t => now - t < 86400))) v0
             ((st.visitor_daily v0).filter (fun t => now - t < 86400) ++ [now]) }) := by
  simp only [check_rate_limit, if_neg hw, if_neg h1, if_neg h2, if_neg h3]

/-- Branch evaluation: an allowed request without a visitor id appends
`now` to the two per-IP counters and leaves the visitor counters alone. -/
theorem crl_allow_none (st : RateLimitState) (now : Int) (ip : String)
    (hw : ip ∉ WHITELISTED_IPS)
    (h1 : ¬ IP_MINUTE_LIMIT ≤ ((st.ip_minute ip).filter (fun t => now - t < 60)).length)
    (h2 : ¬ DAILY_LIMIT ≤ ((st.ip_daily ip).filter (fun t => now - t < 86400)).length) :
    check_rate_limit st now ip none =
      ((true, "ok"),
       { ip_minute :=
           updMap (updMap st.ip_minute ip
               ((st.ip_minute ip).filter (fun t => now - t < 60))) ip
             ((st.ip_minute ip).filter (fun t => now - t < 60) ++ [now]),
         ip_daily :=
           updMap (updMap st.ip_daily ip
               ((st.ip_daily ip).filter (fun t => now - t < 86400))) ip
             ((st.ip_daily ip).filter (fun t => now - t < 86400) ++ [now]),
         visitor_daily := st.visitor_daily }) := by
  simp only [check_rate_limit, if_neg hw, if_neg h1, if_neg h2]

/-- C10: whitelisted IPs are always allowed with no counter change;
otherwise an allowed call appends `now` to the caller's per-IP-minute and
per-IP-daily counters (after pruning) and to the given visitor's daily
counter, while a denied call appends no timestamp to any counter — every
counter after a denial is a sublist (a pruning) of its previous value. -/
theorem C10_rate_limit_counters (st : RateLimitState) (now : Int)
    (client_ip : String) (visitor_id : Option String) :
    (client_ip ∈ WHITELISTED_IPS →
      check_rate_limit st now client_ip visitor_id = ((true, "whitelisted"), st))
    ∧ (client_ip ∉ WHITELISTED_IPS →
        (check_rate_limit st now client_ip visitor_id).1.1 = true →
        ((check_rate_limit st now client_ip visitor_id).2.ip_minute client_ip =
            (st.ip_minute client_ip).filter (fun t => now - t < 60) ++ [now]
          ∧ (check_rate_limit st now client_ip visitor_id).2.ip_daily client_ip =
            (st.ip_daily client_ip).filter (fun t => now - t < 86400) ++ [now]
          ∧ ∀ v, visitor_id = some v →
              (check_rate_limit st now client_ip visitor_id).2.visitor_daily v =
                (st.visitor_daily v).filter (fun t => now - t < 86400) ++ [now]))
    ∧ ((check_rate_limit st now client_ip visitor_id).1.1 = false →
        ∀ k,
          ((check_rate_limit st now client_ip visitor_id).2.ip_minute k).Sublist
              (st.ip_minute k)
          ∧ ((check_rate_limit st now client_ip visitor_id).2.ip_daily k).Sublist
              (st.ip_daily k)
          ∧ ((check_rate_limit st now client_ip visitor_id).2.visitor_daily k).Sublist
              (st.visitor_daily k)) := by
  have hsub : ∀ (f : String → List Int) (ip k : String) (p : Int → Bool),
      ((updMap f ip (( f ip).filter p)) k).Sublist (f k) := by
    intro f ip k p
    by_cases hk : k = ip
    · subst hk
      simp only [updMap, if_pos rfl]
      exact List.filter_sublist _
    · simp only [updMap, if_neg hk]
      exact List.Sublist.refl _
  by_cases hw : client_ip ∈ WHITELISTED_IPS
  · have heq := crl_whitelisted st now client_ip visitor_id hw
    refine ⟨fun _ => heq, fun hnw => absurd hw hnw, fun hden => ?_⟩
    rw [heq] at hden
    simp at hden
  · refine ⟨fun hw2 => absurd hw2 hw, ?_, ?_⟩
    · -- allowed: counters get `now` appended
      intro _ hok
      by_cases h1 : IP_MINUTE_LIMIT ≤
          ((st.ip_minute client_ip).filter (fun t => now - t < 60)).length
      · rw [crl_deny_minute st now client_ip visitor_id hw h1] at hok
        simp at hok
      · by_cases h2 : DAILY_LIMIT ≤
            ((st.ip_daily client_ip).filter (fun t => now - t < 86400)).length
        · rw [crl_deny_daily st now client_ip visitor_id hw h1 h2] at hok
          simp at hok
        · cases hv : visitor_id with
          | none =>
            subst hv
            rw [crl_allow_none st now client_ip hw h1 h2]
            exact ⟨by simp [updMap], by simp [updMap],
              fun v hveq => absurd hveq (by simp)⟩
          | some v0 =>
            subst hv
            by_cases h3 : DAILY_LIMIT ≤
                ((st.visitor_daily v0).filter (fun t => now - t < 86400)).length
            · rw [crl_deny_visitor st now client_ip v0 hw h1 h2 h3] at hok
              simp at hok
            · rw [crl_allow_some st now client_ip v0 hw h1 h2 h3]
              refine ⟨by simp [updMap], by simp [updMap], fun v hveq => ?_⟩
              cases hveq
              simp [updMap]
    · -- denied: every counter is a pruning of its previous value
      intro hden k
      by_cases h1 : IP_MINUTE_LIMIT ≤
          ((st.ip_minute client_ip).filter (fun t => now - t < 60)).length
      · rw [crl_deny_minute st now client_ip visitor_id hw h1]
        exact ⟨hsub _ _ _ _, List.Sublist.refl _, List.Sublist.refl _⟩
      · by_cases h2 : DAILY_LIMIT ≤
            ((st.ip_daily client_ip).filter (fun t => now - t < 86400)).length
        · rw [crl_deny_daily st now client_ip visitor_id hw h1 h2]
          exact ⟨hsub _ _ _ _, hsub _ _ _ _, List.Sublist.refl _⟩
        · cases hv : visitor_id with
          | none =>
            subst hv
            rw [crl_allow_none st now client_ip hw h1 h2] at hden
            simp at hden
          | some v0 =>
            subst hv
            by_cases h3 : DAILY_LIMIT ≤
                ((st.visitor_daily v0).filter (fun t => now - t < 86400)).length
            · rw [crl_deny_visitor st now client_ip v0 hw h1 h2 h3]
              exact ⟨hsub _ _ _ _, hsub _ _ _ _, hsub _ _ _ _⟩
            · rw [crl_allow_some st now client_ip v0 hw h1 h2 h3] at hden
              simp at hden

/-- Witness for C10: a fresh state allows a non-whitelisted request and
records it in all three counters, and the whitelisted localhost IP passes
untouched. -/
theorem C10_witness :
    (check_rate_limit (RateLimitState.mk (fun _ => []) (fun _ => []) (fun _ => []))
        1000 "203.0.113.7" (some "visitor-1")).1.1 = true
    ∧ (check_rate_limit (RateLimitState.mk (fun _ => []) (fun _ => []) (fun _ => []))
        1000 "203.0.113.7" (some "visitor-1")).2.ip_minute "203.0.113.7" = [1000]
    ∧ (check_rate_limit (RateLimitState.mk (fun _ => []) (fun _ => []) (fun _ => []))
        1000 "203.0.113.7" (some "visitor-1")).2.ip_daily "203.0.113.7" = [1000]
    ∧ (check_rate_limit (RateLimitState.mk (fun _ => []) (fun _ => []) (fun _ => []))
        1000 "203.0.113.7" (some "visitor-1")).2.visitor_daily "visitor-1" = [1000]
    ∧ check_rate_limit (RateLimitState.mk (fun _ => []) (fun _ => []) (fun _ => []))
        1000 "127.0.0.1" none =
      ((true, "whitelisted"),
        RateLimitState.mk (fun _ => []) (fun _ => []) (fun _ => [])) := by
  have hall : (check_rate_limit
      (RateLimitState.mk (fun _ => []) (fun _ => []) (fun _ => []))
      1000 "203.0.113.7" (some "visitor-1")).1.1 = true := by
    rw [crl_allow_some (RateLimitState.mk (fun _ => []) (fun _ => []) (fun _ => []))
      1000 "203.0.113.7" "visitor-1" (by decide) (by decide) (by decide) (by decide)]
  have h := (C10_rate_limit_counters
    (RateLimitState.mk (fun _ => []) (fun _ => []) (fun _ => []))
    1000 "203.0.113.7" (some "visitor-1")).2.1 (by decide) hall
  have hwl := (C10_rate_limit_counters
    (RateLimitState.mk (fun _ => []) (fun _ => []) (fun _ => []))
    1000 "127.0.0.1" none).1 (by decide)
  refine ⟨hall, ?_, ?_, ?_, hwl⟩
  · simpa using h.1
  · simpa using h.2.1
  · simpa using h.2.2 "visitor-1" rfl

/-! ## `agent.py` / `main.py` — the streaming turn and its SSE surface

`run_agent_streaming` (`agent.py` lines 485-681) drives one turn: an inner
agent stream (`stream_with_agent`) yields token / tool / summary events,
and the outer `while True` retry loop handles rate-limit escalation from
the primary to the fallback model.  The inner stream is modelled as an
oracle mapping the tier (`use_fallback`) and the attempt counter to the
events it yields before either completing (`none`) or raising an
exception with the given string form (`some e`).  `stream_response`
(`main.py` lines 384-499) wraps the event sequence for SSE: it prepends a
`start` event, forwards every event except `tool_summary` (which is only
stored), and appends a `done` event after the agent stream completes.
The random-jittered `delay_seconds` payload and the configured model-name
payloads of `rate_limit` / `model_fallback` events are not tracked. -/

/-- Events the inner agent stream can yield
(`stream_with_agent`, `agent.py` lines 525-605). -/
inductive InnerEv where
  | token (s : String)
  | toolStart (name : String)
  | toolEnd (name : String) (output : String)
  | toolSummary
deriving DecidableEq, Repr

/-- Events yielded by `run_agent_streaming` (`agent.py` lines 607-681). -/
inductive Ev where
  | token (s : String)
  | toolStart (name : String)
  | toolEnd (name : String) (output : String)
  | toolSummary
  | rateLimit (attempt maxAttempts : Nat) (willFallback : Bool)
  | modelFallback
  | error (msg : String)
deriving DecidableEq, Repr

/-- Inner events pass through the retry loop unchanged. -/
def injectInner : InnerEv → Ev
  | InnerEv.token s => Ev.token s
  | InnerEv.toolStart n => Ev.toolStart n
  | InnerEv.toolEnd n o => Ev.toolEnd n o
  | InnerEv.toolSummary => Ev.toolSummary

/-- `MAX_RETRIES_BEFORE_FALLBACK` (`agent.py` line 504). -/
def MAX_RETRIES_BEFORE_FALLBACK : Nat := 2

/-- The `while True` retry loop of `run_agent_streaming`
(`agent.py` lines 607-681), started at a given tier and attempt counter.
`oracle tier attempt` is the inner stream's behaviour for that
invocation: the events it yields, then `none` on completion or `some e`
when it raises.  Returns the yielded events and the list of
(tier, attempt-counter) invocations made. -/
def runLoop (oracle : Bool → Nat → List InnerEv × Option String)
    (useFallback : Bool) (attempt : Nat) : List Ev × List (Bool × Nat) :=
  let pre : List Ev := if useFallback then [Ev.modelFallback] else []
  let outcome := oracle useFallback attempt
  let evs := outcome.1.map injectInner
  match outcome.2 with
  | none => (pre ++ evs, [(useFallback, attempt)])
  | some e =>
    if is_rate_limit_error e = false then
      (pre ++ evs ++ [Ev.error e], [(useFallback, attempt)])
    else if h1 : useFallback = false then
      if h2 : attempt < MAX_RETRIES_BEFORE_FALLBACK then
        let r := runLoop oracle false (attempt + 1)
        (pre ++ evs ++
          [Ev.rateLimit (attempt + 1) MAX_RETRIES_BEFORE_FALLBACK false] ++ r.1,
         (useFallback, attempt) :: r.2)
      else
        let r := runLoop oracle true 0
        (pre ++ evs ++
          [Ev.rateLimit (attempt + 1) MAX_RETRIES_BEFORE_FALLBACK true] ++ r.1,
         (useFallback, attempt) :: r.2)
    else
      (pre ++ evs ++ [Ev.error ("Rate limit on both models: " ++ e)],
       [(useFallback, attempt)])
termination_by if useFallback then 0 else 3 - min attempt 2
decreasing_by
  · simp only [MAX_RETRIES_BEFORE_FALLBACK] at h2
    simp [h1]
    omega
  · simp [h1]

/-- `run_agent_streaming` (`agent.py` lines 485-681): the retry loop
entered at the primary tier with attempt counter 0. -/
def run_agent_streaming (oracle : Bool → Nat → List InnerEv × Option String) :
    List Ev × List (Bool × Nat) :=
  runLoop oracle false 0

/-- SSE events produced by `stream_response` (`main.py` lines 384-499). -/
inductive SSEEvent where
  | start
  | token (s : String)
  | toolStart (name : String)
  | toolEnd (name : String) (output : String)
  | rateLimit (attempt maxAttempts : Nat) (willFallback : Bool)
  | modelFallback
  | error (msg : String)
  | done
deriving DecidableEq, Repr

/-- How `stream_response` forwards one agent event (`main.py`
lines 397-468): `tool_summary` is stored via the API but not forwarded;
every other event maps 1:1 to an SSE event. -/
def toSSE : Ev → Option SSEEvent
  | Ev.token s => some (SSEEvent.token s)
  | Ev.toolStart n => some (SSEEvent.toolStart n)
  | Ev.toolEnd n o => some (SSEEvent.toolEnd n o)
  | Ev.toolSummary => none
  | Ev.rateLimit a m w => some (SSEEvent.rateLimit a m w)
  | Ev.modelFallback => some SSEEvent.modelFallback
  | Ev.error e => some (SSEEvent.error e)

/-- `stream_response` (`main.py` lines 384-499): `start`, then the
forwarded agent events, then `done` once the agent stream completes. -/
def stream_response (oracle : Bool → Nat → List InnerEv × Option String) :
    List SSEEvent :=
  SSEEvent.start :: ((run_agent_streaming oracle).1.filterMap toSSE) ++ [SSEEvent.done]

/-- Terminal SSE events: `error` and `done`. -/
def isTerminalSSE : SSEEvent → Bool
  | SSEEvent.error _ => true
  | SSEEvent.done => true
  | _ => false

/-- Is this agent event an `error` event? -/
def isErrorEv : Ev → Bool
  | Ev.error _ => true
  | _ => false

/-- Is this agent event a `model_fallback` event? -/
def isModelFallbackEv : Ev → Bool
  | Ev.modelFallback => true
  | _ => false

/-- Is this SSE event an `error` event? -/
def isErrorSSE : SSEEvent → Bool
  | SSEEvent.error _ => true
  | _ => false

/-- Number of `error` events in an agent event list. -/
def errCount : List Ev → Nat
  | [] => 0
  | e :: t => (if isErrorEv e then 1 else 0) + errCount t

/-- Number of `model_fallback` events in an agent event list. -/
def mfCount : List Ev → Nat
  | [] => 0
  | e :: t => (if isModelFallbackEv e then 1 else 0) + mfCount t

/-- Number of `error` events in an SSE event list. -/
def errCountSSE : List SSEEvent → Nat
  | [] => 0
  | e :: t => (if isErrorSSE e then 1 else 0) + errCountSSE t

/-- Number of `done` events in an SSE event list. -/
def doneCountSSE : List SSEEvent → Nat
  | [] => 0
  | e :: t => (if e = SSEEvent.done then 1 else 0) + doneCountSSE t

/-- The retry loop's "error shape": either no `error` event at all, or a
single `error` event as the very last event. -/
def ErrShape (l : List Ev) : Prop :=
  errCount l = 0 ∨
  ∃ e pre, l = pre ++ [Ev.error e] ∧ errCount pre = 0

theorem errCount_append (l1 l2 : List Ev) :
    errCount (l1 ++ l2) = errCount l1 + errCount l2 := by
  induction l1 with
  | nil => simp [errCount]
  | cons e t ih => simp [errCount, ih]; omega

theorem mfCount_append (l1 l2 : List Ev) :
    mfCount (l1 ++ l2) = mfCount l1 + mfCount l2 := by
  induction l1 with
  | nil => simp [mfCount]
  | cons e t ih => simp [mfCount, ih]; omega

/-- Inner events never inject to `error` events. -/
theorem inject_errCount (evs : List InnerEv) :
    errCount (evs.map injectInner) = 0 := by
  induction evs with
  | nil => rfl
  | cons e t ih =>
    cases e <;> simp [injectInner, isErrorEv, errCount, ih]

/-- Inner events never inject to `model_fallback` events. -/
theorem inject_mfCount (evs : List InnerEv) :
    mfCount (evs.map injectInner) = 0 := by
  induction evs with
  | nil => rfl
  | cons e t ih =>
    cases e <;> simp [injectInner, isModelFallbackEv, mfCount, ih]

/-- Prepending error-free events preserves the error shape. -/
theorem errShape_append (l1 l2 : List Ev) (h1 : errCount l1 = 0)
    (h2 : ErrShape l2) : ErrShape (l1 ++ l2) := by
  cases h2 with
  | inl h =>
    exact Or.inl (by rw [errCount_append, h1, h])
  | inr h =>
    obtain ⟨e, pre, hpre, hcnt⟩ := h
    refine Or.inr ⟨e, l1 ++ pre, ?_, ?_⟩
    · rw [hpre, List.append_assoc]
    · rw [errCount_append, h1, hcnt]

/-- Turn a `≠ false` classification fact into `= true`. -/
theorem rl_true_of_not_false {e : String}
    (hrl : ¬ is_rate_limit_error e = false) : is_rate_limit_error e = true := by
  cases h : is_rate_limit_error e
  · exact absurd h hrl
  · rfl

/-- One fallback-tier pass: exactly one invocation `(true, att)`, the
`model_fallback` event first, no further `model_fallback` events, and an
error-shaped event list. -/
theorem runLoop_fallback (oracle : Bool → Nat → List InnerEv × Option String)
    (att : Nat) :
    (runLoop oracle true att).2 = [(true, att)]
    ∧ (∃ rest, (runLoop oracle true att).1 = Ev.modelFallback :: rest ∧
        mfCount rest = 0)
    ∧ ErrShape (runLoop oracle true att).1 := by
  rcases ho : oracle true att with ⟨evs, exc⟩
  cases exc with
  | none =>
    have hres : runLoop oracle true att =
        (Ev.modelFallback :: evs.map injectInner, [(true, att)]) := by
      rw [runLoop]
      simp [ho]
    rw [hres]
    refine ⟨rfl, ⟨evs.map injectInner, rfl, inject_mfCount evs⟩, Or.inl ?_⟩
    simp [errCount, isErrorEv, inject_errCount]
  | some e =>
    by_cases hrl : is_rate_limit_error e = false
    · have hres : runLoop oracle true att =
          (Ev.modelFallback :: (evs.map injectInner ++ [Ev.error e]),
           [(true, att)]) := by
        rw [runLoop]
        simp [ho, hrl]
      rw [hres]
      refine ⟨rfl, ⟨evs.map injectInner ++ [Ev.error e], rfl, ?_⟩, ?_⟩
      · rw [mfCount_append, inject_mfCount]
        simp [mfCount, isModelFallbackEv]
      · refine Or.inr ⟨e, Ev.modelFallback :: evs.map injectInner, by simp, ?_⟩
        simp [errCount, isErrorEv, inject_errCount]
    · have hrl2 := rl_true_of_not_false hrl
      have hres : runLoop oracle true att =
          (Ev.modelFallback :: (evs.map injectInner ++
            [Ev.error ("Rate limit on both models: " ++ e)]),
           [(true, att)]) := by
        rw [runLoop]
        simp [ho, hrl2]
      rw [hres]
      refine ⟨rfl, ⟨evs.map injectInner ++
        [Ev.error ("Rate limit on both models: " ++ e)], rfl, ?_⟩, ?_⟩
      · rw [mfCount_append, inject_mfCount]
        simp [mfCount, isModelFallbackEv]
      · refine Or.inr ⟨"Rate limit on both models: " ++ e,
          Ev.modelFallback :: evs.map injectInner, by simp, ?_⟩
        simp [errCount, isErrorEv, inject_errCount]

/-- Primary tier with the attempt counter at or past the maximum: the
event list is error-shaped. -/
theorem runLoop_primary_hi (oracle : Bool → Nat → List InnerEv × Option String)
    (att : Nat) (hatt : 2 ≤ att) :
    ErrShape (runLoop oracle false att).1 := by
  rcases ho : oracle false att with ⟨evs, exc⟩
  cases exc with
  | none =>
    have hres : runLoop oracle false att = (evs.map injectInner, [(false, att)]) := by
      rw [runLoop]
      simp [ho]
    rw [hres]
    exact Or.inl (inject_errCount evs)
  | some e =>
    by_cases hrl : is_rate_limit_error e = false
    · have hres : runLoop oracle false att =
          (evs.map injectInner ++ [Ev.error e], [(false, att)]) := by
        rw [runLoop]
        simp [ho, hrl]
      rw [hres]
      exact Or.inr ⟨e, evs.map injectInner, rfl, inject_errCount evs⟩
    · have hrl2 := rl_true_of_not_false hrl
      have hnot : ¬ att < MAX_RETRIES_BEFORE_FALLBACK := by
        simp only [MAX_RETRIES_BEFORE_FALLBACK]
        omega
      have hres : runLoop oracle false att =
          (evs.map injectInner ++
            Ev.rateLimit (att + 1) MAX_RETRIES_BEFORE_FALLBACK true ::
              (runLoop oracle true 0).1,
           (false, att) :: (runLoop oracle true 0).2) := by
        rw [runLoop]
        simp [ho, hrl2, hnot]
      rw [hres]
      have hpre : errCount (evs.map injectInner ++
          [Ev.rateLimit (att + 1) MAX_RETRIES_BEFORE_FALLBACK true]) = 0 := by
        rw [errCount_append, inject_errCount]
        simp [errCount, isErrorEv]
      have := errShape_append _ _ hpre (runLoop_fallback oracle 0).2.2
      simpa using this

/-- Primary tier, any attempt counter: the event list is error-shaped. -/
theorem runLoop_primary_shape (oracle : Bool → Nat → List InnerEv × Option String) :
    ∀ (fuel att : Nat), 2 - att ≤ fuel → ErrShape (runLoop oracle false att).1 := by
  intro fuel
  induction fuel with
  | zero =>
    intro att h0
    exact runLoop_primary_hi oracle att (by omega)
  | succ k ih =>
    intro att h
    by_cases hatt : 2 ≤ att
    · exact runLoop_primary_hi oracle att hatt
    · rcases ho : oracle false att with ⟨evs, exc⟩
      cases exc with
      | none =>
        have hres : runLoop oracle false att =
            (evs.map injectInner, [(false, att)]) := by
          rw [runLoop]
          simp [ho]
        rw [hres]
        exact Or.inl (inject_errCount evs)
      | some e =>
        by_cases hrl : is_rate_limit_error e = false
        · have hres : runLoop oracle false att =
              (evs.map injectInner ++ [Ev.error e], [(false, att)]) := by
            rw [runLoop]
            simp [ho, hrl]
          rw [hres]
          exact Or.inr ⟨e, evs.map injectInner, rfl, inject_errCount evs⟩
        · have hrl2 := rl_true_of_not_false hrl
          have hlt : att < MAX_RETRIES_BEFORE_FALLBACK := by
            simp only [MAX_RETRIES_BEFORE_FALLBACK]
            omega
          have hres : runLoop oracle false att =
              (evs.map injectInner ++
                Ev.rateLimit (att + 1) MAX_RETRIES_BEFORE_FALLBACK false ::
                  (runLoop oracle false (att + 1)).1,
               (false, att) :: (runLoop oracle false (att + 1)).2) := by
            rw [runLoop]
            simp [ho, hrl2, hlt]
          rw [hres]
          have hpre : errCount (evs.map injectInner ++
              [Ev.rateLimit (att + 1) MAX_RETRIES_BEFORE_FALLBACK false]) = 0 := by
            rw [errCount_append, inject_errCount]
            simp [errCount, isErrorEv]
          have := errShape_append _ _ hpre (ih (att + 1) (by omega))
          simpa using this

/-- `toSSE` sends `error` events to `error` events and nothing else. -/
theorem filterMap_errCount (l : List Ev) :
    errCountSSE (l.filterMap toSSE) = errCount l := by
  induction l with
  | nil => rfl
  | cons e t ih =>
    cases e <;> simp [toSSE, isErrorEv, isErrorSSE, List.filterMap_cons,
      errCountSSE, errCount, ih]

/-- `toSSE` never produces a `done` event. -/
theorem filterMap_doneCount (l : List Ev) :
    doneCountSSE (l.filterMap toSSE) = 0 := by
  induction l with
  | nil => rfl
  | cons e t ih =>
    cases e <;> simp [toSSE, List.filterMap_cons, doneCountSSE, ih]

/-- C1 counterexample: when the agent layer fails with a non-rate-limit
error, `run_agent_streaming` yields an `error` event, its generator
completes, and `stream_response` still appends `done` — the SSE turn
contains both terminal events, refuting their claimed mutual exclusivity. -/
theorem C1_counterexample :
    stream_response (fun _ _ => ([], some "boom")) =
      [SSEEvent.start, SSEEvent.error "boom", SSEEvent.done]
    ∧ errCountSSE (stream_response (fun _ _ => ([], some "boom"))) = 1
    ∧ doneCountSSE (stream_response (fun _ _ => ([], some "boom"))) = 1 := by
  have hb : is_rate_limit_error "boom" = false := by decide
  have hres : runLoop (fun _ _ => ([], some "boom")) false 0 =
      ([Ev.error "boom"], [(false, 0)]) := by
    rw [runLoop]
    simp [hb]
  have hlist : stream_response (fun _ _ => ([], some "boom")) =
      [SSEEvent.start, SSEEvent.error "boom", SSEEvent.done] := by
    rw [stream_response, run_agent_streaming, hres]
    simp [toSSE, List.filterMap_cons]
  refine ⟨hlist, ?_, ?_⟩ <;> rw [hlist] <;> decide

/-- C1 (amended): for every turn the SSE stream is `start`, a middle
section, then `done`: `done` is emitted exactly once and is always the
last event; at most one `error` event occurs, and when it does it is the
last event before `done` — so after an agent-level failure the stream
carries both `error` and `done` (they are not mutually exclusive), with
`done` still closing the stream. -/
theorem C1_terminal_events (oracle : Bool → Nat → List InnerEv × Option String) :
    ∃ mid, stream_response oracle = SSEEvent.start :: mid ++ [SSEEvent.done]
    ∧ doneCountSSE mid = 0
    ∧ (errCountSSE mid = 0 ∨
        ∃ e mid0, mid = mid0 ++ [SSEEvent.error e] ∧ errCountSSE mid0 = 0) := by
  refine ⟨(run_agent_streaming oracle).1.filterMap toSSE, rfl,
    filterMap_doneCount _, ?_⟩
  have hshape := runLoop_primary_shape oracle 2 0 (by omega)
  cases hshape with
  | inl h =>
    left
    rw [filterMap_errCount]
    exact h
  | inr h =>
    obtain ⟨e, pre, hpre, hcnt⟩ := h
    right
    refine ⟨e, pre.filterMap toSSE, ?_, ?_⟩
    · show (runLoop oracle false 0).1.filterMap toSSE = _
      rw [hpre, List.filterMap_append]
      simp [toSSE, List.filterMap_cons]
    · rw [filterMap_errCount]
      exact hcnt

/-- The full escalation trace when the primary tier rate-limits on every
try: three primary invocations with backoff notifications, then the
fallback pass. -/
theorem escalation_trace (oracle : Bool → Nat → List InnerEv × Option String)
    (eP : Nat → String) (H : ∀ n, oracle false n = ([], some (eP n)))
    (HRL : ∀ n, is_rate_limit_error (eP n) = true) :
    runLoop oracle false 0 =
      (Ev.rateLimit 1 2 false :: Ev.rateLimit 2 2 false ::
        Ev.rateLimit 3 2 true :: (runLoop oracle true 0).1,
       (false, 0) :: (false, 1) :: (false, 2) :: (runLoop oracle true 0).2) := by
  have s2 : runLoop oracle false 2 =
      (Ev.rateLimit 3 2 true :: (runLoop oracle true 0).1,
       (false, 2) :: (runLoop oracle true 0).2) := by
    rw [runLoop]
    simp [H 2, HRL 2, MAX_RETRIES_BEFORE_FALLBACK]
  have s1 : runLoop oracle false 1 =
      (Ev.rateLimit 2 2 false :: (runLoop oracle false 2).1,
       (false, 1) :: (runLoop oracle false 2).2) := by
    rw [runLoop]
    simp [H 1, HRL 1, MAX_RETRIES_BEFORE_FALLBACK]
  have s0 : runLoop oracle false 0 =
      (Ev.rateLimit 1 2 false :: (runLoop oracle false 1).1,
       (false, 0) :: (runLoop oracle false 1).2) := by
    rw [runLoop]
    simp [H 0, HRL 0, MAX_RETRIES_BEFORE_FALLBACK]
  rw [s0, s1, s2]

/-- C2 counterexample: with a primary tier that rate-limits on every try,
the retry loop makes 3 primary-tier invocations (initial attempt plus 2
backoff retries), not the claimed 2. -/
theorem C2_counterexample :
    ((run_agent_streaming
        (fun fb _ => ([], if fb then none else some "429"))).2.filter
      (fun c => c.1 == false)).length = 3
    ∧ ¬ ((run_agent_streaming
        (fun fb _ => ([], if fb then none else some "429"))).2.filter
      (fun c => c.1 == false)).length = 2 := by
  have ht := escalation_trace (fun fb _ => ([], if fb then none else some "429"))
    (fun _ => "429") (fun _ => rfl)
    (fun _ => (by decide : is_rate_limit_error "429" = true))
  have hcalls :=
    (runLoop_fallback (fun fb _ => ([], if fb then none else some "429")) 0).1
  have hlist : (run_agent_streaming
      (fun fb _ => ([], if fb then none else some "429"))).2 =
      [(false, 0), (false, 1), (false, 2), (true, 0)] := by
    rw [run_agent_streaming, ht]
    simp only [hcalls]
  rw [hlist]
  exact ⟨rfl, by decide⟩

/-- C2 (amended): when the primary tier fails with a rate-limit-classified
error on every try, `run_agent_streaming` attempts the primary tier
exactly 3 times (the initial attempt plus `MAX_RETRIES_BEFORE_FALLBACK = 2`
backoff retries), emits exactly one `model_fallback` event — after the
three `rate_limit` notifications and before any fallback-tier output —
and restarts the turn on the fallback tier with its attempt counter reset
to 0. -/
theorem C2_model_escalation (oracle : Bool → Nat → List InnerEv × Option String)
    (eP : Nat → String) (H : ∀ n, oracle false n = ([], some (eP n)))
    (HRL : ∀ n, is_rate_limit_error (eP n) = true) :
    (run_agent_streaming oracle).2 = [(false, 0), (false, 1), (false, 2), (true, 0)]
    ∧ mfCount (run_agent_streaming oracle).1 = 1
    ∧ (run_agent_streaming oracle).1.take 4 =
        [Ev.rateLimit 1 2 false, Ev.rateLimit 2 2 false, Ev.rateLimit 3 2 true,
         Ev.modelFallback] := by
  obtain ⟨hcalls, ⟨rest, hrest, hmf⟩, _⟩ := runLoop_fallback oracle 0
  have ht := escalation_trace oracle eP H HRL
  refine ⟨?_, ?_, ?_⟩
  · rw [run_agent_streaming, ht]
    simp only [hcalls]
  · rw [run_agent_streaming, ht]
    simp only [hrest]
    simp [mfCount, isModelFallbackEv, hmf]
  · rw [run_agent_streaming, ht]
    simp only [hrest]
    rfl

/-- Witness for C2's amended theorem: a primary tier that always raises
"429" and a fallback tier that succeeds silently. -/
theorem C2_witness :
    (run_agent_streaming (fun fb _ => ([], if fb then none else some "429"))).2 =
      [(false, 0), (false, 1), (false, 2), (true, 0)]
    ∧ mfCount (run_agent_streaming
        (fun fb _ => ([], if fb then none else some "429"))).1 = 1
    ∧ (run_agent_streaming
        (fun fb _ => ([], if fb then none else some "429"))).1.take 4 =
        [Ev.rateLimit 1 2 false, Ev.rateLimit 2 2 false, Ev.rateLimit 3 2 true,
         Ev.modelFallback] :=
  C2_model_escalation (fun fb _ => ([], if fb then none else some "429"))
    (fun _ => "429") (fun _ => rfl)
    (fun _ => (by decide : is_rate_limit_error "429" = true))

end LucieAgent
